import Mathlib

/-
Verification of the slurm_util repository's behavioural specification.

The Python sources (src/slurm_util/utils.py, src/slurm_util/submit.py) are
shallowly embedded below.  Python strings are modelled as lists of
characters, subprocess results as explicit records, and the polling loops
as fuel-indexed recursions over an environment that supplies the external
tools' answers.  Python's integer division, which can raise
ZeroDivisionError, is modelled with Except.
-/

namespace Slurm

/-- A Python string, modelled as its list of characters. -/
abbrev Str := List Char

/-- ASCII digit test: the regex class d used in the job-id and node
patterns (codepoints 48-57). -/
def isDigitCh (c : Char) : Bool := 48 ≤ c.toNat && c.toNat ≤ 57

/-- ASCII whitespace test, modelling Python str.strip / str.isspace and the
regex class S (negated): space, tab, newline, carriage return, vertical
tab, form feed. -/
def isSpaceCh (c : Char) : Bool :=
  c.toNat = 32 || c.toNat = 9 || c.toNat = 10 || c.toNat = 13 || c.toNat = 11 || c.toNat = 12

/-- The decimal digit character for a value below ten. -/
def digitChar (d : Nat) : Char := Char.ofNat (48 + d)

/-- Decimal rendering of a natural number (Python str(n)), with fuel
bounding the number of divisions by ten. -/
def natToStrAux : Nat → Nat → Str
  | 0, _ => []
  | fuel + 1, n =>
    if n < 10 then [digitChar n]
    else natToStrAux fuel (n / 10) ++ [digitChar (n % 10)]

/-- Decimal rendering of a natural number, as interpolated by the
f-strings of the source. -/
def natToStr (n : Nat) : Str := natToStrAux (n + 1) n

/-- Python str.lstrip(). -/
def lstrip (s : Str) : Str := s.dropWhile isSpaceCh

/-- Python str.rstrip(). -/
def rstrip (s : Str) : Str := (s.reverse.dropWhile isSpaceCh).reverse

/-- Python str.strip(). -/
def strip (s : Str) : Str := rstrip (lstrip s)

/-- Python s.split("\n"). -/
def splitNl : Str → List Str
  | [] => [[]]
  | c :: cs =>
    if c = '\n' then [] :: splitNl cs
    else
      match splitNl cs with
      | [] => [[c]]
      | l :: ls => (c :: l) :: ls

/-- Python "\n".join(parts). -/
def joinNl : List Str → Str
  | [] => []
  | [l] => l
  | l :: ls => l ++ '\n' :: joinNl ls

/-- trim_whitespace from utils.py / submit.py: strip every line and keep
the nonempty ones, joined by newlines. -/
def trim_whitespace (s : Str) : Str :=
  joinNl (((splitNl s).map strip).filter (fun l => l ≠ []))

/-- Python substring containment (the in operator): some position of s
starts with pat. -/
def containsSub (pat : Str) : Str → Bool
  | [] => pat.isPrefixOf []
  | c :: cs => pat.isPrefixOf (c :: cs) || containsSub pat cs

/-- The literal part of the pattern searched by submit.main in the sbatch
output. -/
def job_pat : Str := "Submitted batch job ".data

/-- re.search of the pattern job_pat followed by one or more digits:
leftmost match, greedy digit group; none when the pattern is absent. -/
def findJobId : Str → Option Str
  | [] => none
  | c :: cs =>
    if job_pat.isPrefixOf (c :: cs) &&
        !(((c :: cs).drop job_pat.length).takeWhile isDigitCh).isEmpty then
      some (((c :: cs).drop job_pat.length).takeWhile isDigitCh)
    else findJobId cs

/-- Presence of the submission pattern: some position starts with the
literal followed by at least one digit. -/
def hasPattern : Str → Bool
  | [] => false
  | c :: cs =>
    (job_pat.isPrefixOf (c :: cs) &&
      !(((c :: cs).drop job_pat.length).takeWhile isDigitCh).isEmpty) || hasPattern cs

/-- Python int() on a decimal-digit string. -/
def strToNat (s : Str) : Nat := s.foldl (fun a c => a * 10 + (c.toNat - 48)) 0

/-- Berzelius.get_ssh_port from utils.py and submit.py:
10000 + int(job_id) % 55000. -/
def Berzelius.get_ssh_port (job_id : Str) : Nat := 10000 + strToNat job_id % 55000

/-- Alvis.get_ssh_port from utils.py and submit.py: constant 22. -/
def Alvis.get_ssh_port (_job_id : Str) : Nat := 22

/-- The twelve spaces preceding each interpolated directive in the
resource_alloc f-strings. -/
def pad12 : Str := List.replicate 12 ' '

/-- The sixteen spaces of the f-strings' closing line. -/
def pad16 : Str := List.replicate 16 ' '

/-- Berzelius.resource_alloc from utils.py (device_type / cpus_per_gpu
variant). -/
def Berzelius.resource_alloc_utils (gpus_per_node : Nat) (device_type : Str)
    (cpus_per_gpu : Nat) (nodes : Nat) : Str :=
  let gpu_alloc :=
    if device_type ≠ "cpu".data then "#SBATCH --gpus-per-node ".data ++ natToStr gpus_per_node
    else "--partition=berzelius-cpu".data
  let gpu_alloc :=
    if device_type = "100:80GB".data then gpu_alloc ++ '\n' :: "#SBATCH -C fat".data
    else if device_type = "100:40GB".data then gpu_alloc ++ '\n' :: "#SBATCH -C thin".data
    else if device_type = "A100:10GB".data then
      gpu_alloc ++ '\n' :: "#SBATCH --reservation=1g.10gb".data
    else gpu_alloc
  let cpu_alloc :=
    if device_type ≠ "cpu".data then "#SBATCH --cpus-per-gpu ".data ++ natToStr cpus_per_gpu
    else []
  let node_alloc := "#SBATCH --nodes ".data ++ natToStr nodes
  trim_whitespace (['\n'] ++ pad12 ++ gpu_alloc ++ ['\n'] ++ pad12 ++ cpu_alloc ++
    ['\n'] ++ pad12 ++ node_alloc ++ ['\n'] ++ pad16)

/-- Python integer division: ZeroDivisionError on a zero divisor. -/
def pydiv (a b : Nat) : Except Str Nat :=
  if b = 0 then Except.error "ZeroDivisionError".data else Except.ok (a / b)

/-- Berzelius.resource_alloc from submit.py (gpu_model / cpus_per_node
variant); Except models the ZeroDivisionError that
cpus_per_node // gpus_per_node can raise. -/
def Berzelius.resource_alloc_submit (gpus_per_node : Nat) (gpu_model : Str)
    (cpus_per_node : Nat) (nodes : Nat) : Except Str Str :=
  let gpu_alloc :=
    if gpu_model ≠ "NOGPU".data then "#SBATCH --gpus-per-node ".data ++ natToStr gpus_per_node
    else "--partition=berzelius-cpu".data
  let gpu_alloc :=
    if containsSub "80GB".data gpu_model then gpu_alloc ++ '\n' :: "#SBATCH -C fat".data
    else if containsSub "40GB".data gpu_model then gpu_alloc ++ '\n' :: "#SBATCH -C thin".data
    else if containsSub "1g.10gb".data gpu_model then
      gpu_alloc ++ '\n' :: "#SBATCH --reservation=1g.10gb".data
    else gpu_alloc
  let cpu_alloc :=
    if gpu_model ≠ "NOGPU".data then
      (pydiv cpus_per_node gpus_per_node).map
        (fun q => "#SBATCH --cpus-per-gpu ".data ++ natToStr q)
    else Except.ok []
  match cpu_alloc with
  | Except.error e => Except.error e
  | Except.ok cpu_alloc =>
    let node_alloc := "#SBATCH --nodes ".data ++ natToStr nodes
    Except.ok (trim_whitespace (['\n'] ++ pad12 ++ gpu_alloc ++ ['\n'] ++ pad12 ++ cpu_alloc ++
      ['\n'] ++ pad12 ++ node_alloc ++ ['\n'] ++ pad16))

/-- The returncode and captured stdout of one external tool invocation. -/
structure ToolResult where
  rc : Int
  out : Str

/-- Answers of squeue and scontrol for each polling attempt of
get_job_nodes. -/
structure PollEnv where
  squeue : Nat → ToolResult
  scontrol : Nat → ToolResult

/-- The squeue branch of one get_job_nodes iteration: the stripped stdout
when the job has started (nonempty, not the pending placeholder, no
parenthesis). -/
def squeue_nodes (r : ToolResult) : Option Str :=
  if r.rc = 0 ∧ strip r.out ≠ [] then
    let nodes := strip r.out
    if nodes ≠ [] ∧ nodes ≠ "(null)".data ∧ ¬ ('(' ∈ nodes) then some nodes else none
  else none

/-- The literal of the NodeList pattern. -/
def nodelist_pat : Str := "NodeList=".data

/-- Whether a string starts with a non-whitespace character (the first
character of the regex group S+). -/
def headNonSpace : Str → Bool
  | [] => false
  | c :: _ => !isSpaceCh c

/-- re.search of NodeList= followed by one or more non-space characters:
leftmost match, greedy group. -/
def searchNodeList : Str → Option Str
  | [] => none
  | c :: cs =>
    if nodelist_pat.isPrefixOf (c :: cs) &&
        headNonSpace ((c :: cs).drop nodelist_pat.length) then
      some (((c :: cs).drop nodelist_pat.length).takeWhile (fun ch => !isSpaceCh ch))
    else searchNodeList cs

/-- One line of scontrol output: the regex is tried only on lines
containing the NodeList= literal. -/
def scontrol_line (line : Str) : Option Str :=
  if containsSub nodelist_pat line then searchNodeList line else none

/-- The for-loop over scontrol's output lines: first usable node wins,
unusable matches fall through to the next line. -/
def scontrol_scan : List Str → Option Str
  | [] => none
  | line :: rest =>
    match scontrol_line line with
    | some nodes =>
      if nodes ≠ [] ∧ nodes ≠ "(null)".data ∧ nodes ≠ "N/A".data then some nodes
      else scontrol_scan rest
    | none => scontrol_scan rest

/-- The scontrol fallback of one get_job_nodes iteration. -/
def scontrol_nodes (r : ToolResult) : Option Str :=
  if r.rc = 0 then scontrol_scan (splitNl r.out) else none

/-- The retry ceiling of get_job_nodes. -/
def max_attempts : Nat := 30

/-- The polling interval, in seconds, of both loops. -/
def sleep_interval : Nat := 10

/-- The get_job_nodes polling loop: squeue first, scontrol as fallback,
one sleep per failed attempt.  The second component counts the sleep
calls made. -/
def get_job_nodes_go (env : PollEnv) : Nat → Nat → Option Str × Nat
  | _, 0 => (none, 0)
  | attempt, fuel + 1 =>
    match squeue_nodes (env.squeue attempt) with
    | some nodes => (some nodes, 0)
    | none =>
      match scontrol_nodes (env.scontrol attempt) with
      | some nodes => (some nodes, 0)
      | none =>
        let r := get_job_nodes_go env (attempt + 1) fuel
        (r.1, r.2 + 1)

/-- get_job_nodes from utils.py / submit.py: up to max_attempts polls
starting at attempt zero. -/
def get_job_nodes (env : PollEnv) : Option Str × Nat :=
  get_job_nodes_go env 0 max_attempts

/-- The C3 scenario: squeue answers the pending placeholder twice and a
real node on the third poll; the scontrol fallback only ever reports the
placeholder node list. -/
def c3_env : PollEnv where
  squeue := fun i => if i < 2 then ⟨0, "(null)\n".data⟩ else ⟨0, "node001\n".data⟩
  scontrol := fun _ => ⟨0, "JobId=4242 NodeList=(null)\n".data⟩

/-- An environment in which both tools fail on every attempt. -/
def c3_allfail_env : PollEnv where
  squeue := fun _ => ⟨1, []⟩
  scontrol := fun _ => ⟨1, []⟩

/-- Answers of the live-queue and accounting tools for wait_for_job. -/
structure WaitEnv where
  squeue : Nat → ToolResult
  sacct : Str

/-- The classification of sacct's State output in wait_for_job. -/
def classify_state (out : Str) : Bool :=
  if containsSub "COMPLETED".data out then true
  else if containsSub "FAILED".data out || containsSub "CANCELLED".data out then false
  else true

/-- The wait_for_job loop (while True in the source), with fuel: none
means the job was still queued after fuel polls. -/
def wait_for_job_go (env : WaitEnv) : Nat → Nat → Option Bool
  | _, 0 => none
  | k, fuel + 1 =>
    let r := env.squeue k
    if r.rc ≠ 0 ∨ strip r.out = [] then some (classify_state env.sacct)
    else wait_for_job_go env (k + 1) fuel

/-- The C4 scenario: the job is reported present twice, absent on the
third poll, and the accounting tool then reports CANCELLED. -/
def c4_env : WaitEnv where
  squeue := fun i => if i < 2 then ⟨0, "RUNNING\n".data⟩ else ⟨0, []⟩
  sacct := "CANCELLED".data

/-- The exit-code logic of submit.main, parametrized by the sbatch result
and by the wait_for_job outcome used when blocking. -/
def main_exit (dry_run : Bool) (submit_rc : Int) (submit_out : Str)
    (blocking : Bool) (wait_success : Bool) : Nat :=
  if !dry_run then
    if submit_rc ≠ 0 then 1
    else
      match findJobId submit_out with
      | some _ => if blocking then (if wait_success then 0 else 1) else 0
      | none => 1
  else 0

/-- The ASCII single-quote character appearing in the generated script
lines. -/
def sqc : Char := Char.ofNat 39

/-- The ASCII double-quote character appearing in the generated script
lines. -/
def dqc : Char := Char.ofNat 34

/-- The shell-environment prefixing of the user command in
wrap_in_sbatch. -/
def apply_shell_env (shell_env command : Str) : Str :=
  if shell_env ≠ [] then shell_env ++ ' ' :: command else command

/-- The non-interactive final command line built by wrap_in_sbatch:
script -qec "tmux new-session -s <job> 'uv run <cmd> 2>&1 | tee <out>'"
run against /dev/null, with the command already shell-env prefixed. -/
def batch_final_command (shell_env command stdout_path : Str) : Str :=
  let cmd := apply_shell_env shell_env command
  let actual_stdout_file := stdout_path ++ "/$SLURM_JOB_ID.out".data
  "script -qec ".data ++ [dqc] ++ "tmux new-session -s ".data ++ [sqc] ++
    "$SLURM_JOB_ID".data ++ [sqc, ' ', sqc] ++ "uv run ".data ++ cmd ++
    " 2>&1 | tee ".data ++ actual_stdout_file ++ [sqc, dqc] ++ " /dev/null".data

/-- The interactive final command line built by wrap_in_sbatch. -/
def interactive_final_command : Str :=
  "script -qec ".data ++ [dqc] ++ "tmux new-session -s ".data ++ [sqc] ++
    "$SLURM_JOB_ID".data ++ [sqc, dqc] ++ " /dev/null".data

/-- The command-selection of wrap_in_sbatch (submit.py lines 143-150). -/
def final_command (shell_env command : Str) (interactive : Bool) (stdout_path : Str) : Str :=
  if interactive then interactive_final_command
  else batch_final_command shell_env command stdout_path

/-- wrap_in_sbatch from submit.py, with the cluster's rendered resource
and ssh strings passed in (the source obtains them from the cluster
object); the os.makedirs side effect is not modelled. -/
def wrap_in_sbatch (command account time_alloc resource_alloc_str ssh_setup_str shell_env : Str)
    (interactive : Bool) (stdout_path : Str) : Str :=
  let stdout_str := "#SBATCH -o ".data ++ stdout_path ++ "/%A.out".data
  let cmd := final_command shell_env command interactive stdout_path
  "#!/bin/bash\n#SBATCH -A ".data ++ account ++ "\n#SBATCH -t ".data ++ time_alloc ++
    ['\n'] ++ resource_alloc_str ++ ['\n'] ++ stdout_str ++ ['\n'] ++ ssh_setup_str ++
    ['\n'] ++ cmd ++ ['\n']

/-- Modelled from the spec: C6's claimed batch command line, a multiplexer
session wrapping exactly the shell-env-prefixed user command piped through
tee to the runtime-resolved output path. -/
def spec_batch_final_command (shell_env command stdout_path : Str) : Str :=
  let wrapped := apply_shell_env shell_env command ++ " 2>&1 | tee ".data ++
    stdout_path ++ "/$SLURM_JOB_ID.out".data
  "script -qec ".data ++ [dqc] ++ "tmux new-session -s ".data ++ [sqc] ++
    "$SLURM_JOB_ID".data ++ [sqc, ' ', sqc] ++ wrapped ++ [sqc, dqc] ++ " /dev/null".data

/-- Modelled from the amended spec wording: the wrapped command carries the
source's uv run prefix before the shell-env-prefixed user command. -/
def spec_batch_final_command_uv (shell_env command stdout_path : Str) : Str :=
  let wrapped := "uv run ".data ++ apply_shell_env shell_env command ++
    " 2>&1 | tee ".data ++ stdout_path ++ "/$SLURM_JOB_ID.out".data
  "script -qec ".data ++ [dqc] ++ "tmux new-session -s ".data ++ [sqc] ++
    "$SLURM_JOB_ID".data ++ [sqc, ' ', sqc] ++ wrapped ++ [sqc, dqc] ++ " /dev/null".data

/-- Python str.ljust(w): pad with spaces on the right up to width w. -/
def ljust (s : Str) (w : Nat) : Str := s ++ List.replicate (w - s.length) ' '

/-- One content row of the box: border, space, left-justified line, space,
border. -/
def boxRow (line : Str) (w : Nat) : Str := ['│', ' '] ++ ljust line w ++ [' ', '│']

/-- The while-loop of format_in_box chopping an overlong line into
width-w pieces, the nonempty remainder kept; the source's loop does not
terminate for width zero, recorded here by the 0 < w guard. -/
def chunkLine (w : Nat) (line : Str) : List Str :=
  if _h : w < line.length ∧ 0 < w then
    line.take w :: chunkLine w (line.drop w)
  else if line ≠ [] then [line] else []
termination_by line.length
decreasing_by simp only [List.length_drop]; omega

/-- The rows generated for one source line of format_in_box. -/
def rowsFor (w : Nat) (line : Str) : List Str :=
  if line.length ≤ w then [boxRow line w]
  else (chunkLine w line).map (fun l => boxRow l w)

/-- format_in_box from utils.py / submit.py. -/
def format_in_box (text : Str) (line_width : Nat) : Str :=
  let box_width := line_width + 2
  let top : Str := ['┌'] ++ List.replicate box_width '─' ++ ['┐']
  let bot : Str := ['└'] ++ List.replicate box_width '─' ++ ['┘']
  let body := ((splitNl (strip text)).map (rowsFor line_width)).flatten
  joinNl ([top] ++ body ++ [bot])

/-- Modelled from the spec: C8's claimed rendering of a width-w line, the
line itself appearing unmodified between the border characters as the
single content row. -/
def spec_box_single (line : Str) (w : Nat) : Str :=
  joinNl [['┌'] ++ List.replicate (w + 2) '─' ++ ['┐'],
          ['│', ' '] ++ line ++ [' ', '│'],
          ['└'] ++ List.replicate (w + 2) '─' ++ ['┘']]

/-- A digit character renders as an ASCII digit. -/
theorem isDigitCh_digitChar {d : Nat} (hd : d < 10) : isDigitCh (digitChar d) = true := by
  interval_cases d <;> decide

/-- ASCII digits are not whitespace. -/
theorem not_space_of_digit {c : Char} (h : isDigitCh c = true) : isSpaceCh c = false := by
  simp only [isDigitCh, Bool.and_eq_true, decide_eq_true_eq] at h
  simp only [isSpaceCh, Bool.or_eq_false_iff, decide_eq_false_iff_not]
  omega

/-- ASCII digits are not the newline character. -/
theorem ne_nl_of_digit {c : Char} (h : isDigitCh c = true) : c ≠ '\n' := by
  rintro rfl
  exact absurd h (by decide)

/-- Every character of the fuelled decimal rendering is a digit. -/
theorem natToStrAux_digits : ∀ fuel n c, c ∈ natToStrAux fuel n → isDigitCh c = true := by
  intro fuel
  induction fuel with
  | zero => intro n _c hc; simp [natToStrAux] at hc
  | succ fuel ih =>
    intro n c hc
    by_cases h : n < 10
    · simp only [natToStrAux, if_pos h, List.mem_singleton] at hc
      subst hc; exact isDigitCh_digitChar h
    · simp only [natToStrAux, if_neg h, List.mem_append, List.mem_singleton] at hc
      rcases hc with hc | hc
      · exact ih _ _ hc
      · subst hc; exact isDigitCh_digitChar (Nat.mod_lt _ (by omega))

/-- Every character of the decimal rendering is a digit. -/
theorem natToStr_digits (n : Nat) : ∀ c ∈ natToStr n, isDigitCh c = true :=
  fun c hc => natToStrAux_digits _ _ _ hc

/-- The decimal rendering is never empty. -/
theorem natToStr_ne_nil (n : Nat) : natToStr n ≠ [] := by
  unfold natToStr natToStrAux
  by_cases h : n < 10 <;> simp [h]

/-- Splitting a newline-free string gives the single-line list. -/
theorem splitNl_no_nl {a : Str} (h : '\n' ∉ a) : splitNl a = [a] := by
  induction a with
  | nil => rfl
  | cons c cs ih =>
    have hc : c ≠ '\n' := fun hrfl => h (hrfl ▸ List.mem_cons_self c cs)
    have hcs : '\n' ∉ cs := fun hm => h (List.mem_cons_of_mem _ hm)
    simp only [splitNl, if_neg hc, ih hcs]

/-- Splitting peels a leading newline-free segment. -/
theorem splitNl_append {a : Str} (b : Str) (h : '\n' ∉ a) :
    splitNl (a ++ '\n' :: b) = a :: splitNl b := by
  induction a with
  | nil => simp [splitNl]
  | cons c cs ih =>
    have hc : c ≠ '\n' := fun hrfl => h (hrfl ▸ List.mem_cons_self c cs)
    have hcs : '\n' ∉ cs := fun hm => h (List.mem_cons_of_mem _ hm)
    simp only [List.cons_append, splitNl, if_neg hc, List.append_eq, ih hcs]

/-- Splitting inverts joining for nonempty lists of newline-free lines. -/
theorem splitNl_joinNl : ∀ parts : List Str, parts ≠ [] → (∀ p ∈ parts, '\n' ∉ p) →
    splitNl (joinNl parts) = parts
  | [], h, _ => absurd rfl h
  | [l], _, hp => by simp [joinNl, splitNl_no_nl (hp l (by simp))]
  | l :: l' :: ls, _, hp => by
    have h1 : joinNl (l :: l' :: ls) = l ++ '\n' :: joinNl (l' :: ls) := rfl
    rw [h1, splitNl_append _ (hp l (by simp)),
      splitNl_joinNl (l' :: ls) (by simp) (fun p hm => hp p (by simp [hm]))]

/-- trim_whitespace over an explicit join of newline-free lines. -/
theorem trim_whitespace_joinNl (parts : List Str) (hne : parts ≠ [])
    (hp : ∀ p ∈ parts, '\n' ∉ p) :
    trim_whitespace (joinNl parts) =
      joinNl ((parts.map strip).filter (fun l => l ≠ [])) := by
  rw [trim_whitespace, splitNl_joinNl parts hne hp]

/-- rstrip leaves a string ending in a digit block untouched. -/
theorem rstrip_append_digits (x ds : Str) (hne : ds ≠ [])
    (h : ∀ c ∈ ds, isDigitCh c = true) : rstrip (x ++ ds) = x ++ ds := by
  have hrev : ds.reverse ≠ [] := by simpa using hne
  obtain ⟨c, t, hct⟩ := List.exists_cons_of_ne_nil hrev
  have hc : c ∈ ds := by
    rw [← List.mem_reverse, hct]; exact List.mem_cons_self _ _
  have hsp : isSpaceCh c = false := not_space_of_digit (h c hc)
  have hds : ds = t.reverse ++ [c] := by
    have h2 := congrArg List.reverse hct
    simpa using h2
  rw [rstrip, List.reverse_append, hct]
  simp [List.dropWhile_cons, hsp, hds]

/-- C1: from the output Submitted batch job 12345 the extracted job id is
12345, and for every output in which the pattern is absent the extraction
yields none. -/
theorem c1_submission_output_parsing :
    findJobId "Submitted batch job 12345\n".data = some "12345".data ∧
    ∀ out : Str, hasPattern out = false → findJobId out = none := by
  refine ⟨by decide, ?_⟩
  intro out
  induction out with
  | nil => intro _; rfl
  | cons c cs ih =>
    intro h
    simp only [hasPattern, Bool.or_eq_false_iff] at h
    simp only [findJobId, h.1, Bool.false_eq_true, if_false]
    exact ih h.2

/-- C1 witness: a concrete patternless output for which extraction yields
none. -/
theorem c1_witness :
    hasPattern "error: submission failed".data = false ∧
    findJobId "error: submission failed".data = none :=
  ⟨by decide, c1_submission_output_parsing.2 _ (by decide)⟩

/-- C2: for a decimal job identifier the Berzelius ssh port equals
10000 + id mod 55000, is deterministic, and lies in [10000, 65000). -/
theorem c2_berzelius_ssh_port_formula :
    ∀ job_id : Str, (∀ c ∈ job_id, isDigitCh c = true) →
      Berzelius.get_ssh_port job_id = 10000 + strToNat job_id % 55000 ∧
      (∀ job_id2 : Str, job_id2 = job_id →
        Berzelius.get_ssh_port job_id2 = Berzelius.get_ssh_port job_id) ∧
      10000 ≤ Berzelius.get_ssh_port job_id ∧
      Berzelius.get_ssh_port job_id < 65000 := by
  intro job_id _
  refine ⟨rfl, fun j2 hj => by rw [hj], ?_, ?_⟩ <;>
  · unfold Berzelius.get_ssh_port
    omega

/-- C2 witness: the port of job id 12345. -/
theorem c2_witness :
    (∀ c ∈ ("12345".data : Str), isDigitCh c = true) ∧
    Berzelius.get_ssh_port "12345".data = 10000 + strToNat "12345".data % 55000 :=
  ⟨by decide, (c2_berzelius_ssh_port_formula "12345".data (by decide)).1⟩

/-- C4: with the job reported present twice then absent and the accounting
tool reporting CANCELLED, the completion wait returns failure; COMPLETED
classifies as success, FAILED and CANCELLED as failure, and any other
terminal text as success. -/
theorem c4_completion_wait :
    (∀ fuel, 3 ≤ fuel → wait_for_job_go c4_env 0 fuel = some false) ∧
    classify_state "COMPLETED".data = true ∧
    classify_state "FAILED".data = false ∧
    classify_state "CANCELLED".data = false ∧
    (∀ out : Str, containsSub "COMPLETED".data out = false →
      containsSub "FAILED".data out = false →
      containsSub "CANCELLED".data out = false →
      classify_state out = true) := by
  refine ⟨?_, by decide, by decide, by decide, ?_⟩
  · intro fuel hf
    obtain ⟨m, rfl⟩ := Nat.exists_eq_add_of_le' hf
    rfl
  · intro out h1 h2 h3
    simp [classify_state, h1, h2, h3]

/-- C4 witness: the scenario with exactly three polls of fuel. -/
theorem c4_witness : 3 ≤ 3 ∧ wait_for_job_go c4_env 0 3 = some false :=
  ⟨le_refl 3, c4_completion_wait.1 3 (le_refl 3)⟩

/-- C5: exit code 0 on dry-run and on successful submission, 1 on a
failed submission command, an unparseable job id, or a blocking wait that
reports failure. -/
theorem c5_exit_codes :
    ∀ (rc : Int) (out : Str) (blocking ws : Bool),
      main_exit true rc out blocking ws = 0 ∧
      (rc ≠ 0 → main_exit false rc out blocking ws = 1) ∧
      (rc = 0 → findJobId out = none → main_exit false rc out blocking ws = 1) ∧
      (rc = 0 → (findJobId out).isSome = true → ws = false →
        main_exit false rc out true ws = 1) ∧
      (rc = 0 → (findJobId out).isSome = true → main_exit false rc out false ws = 0) ∧
      (rc = 0 → (findJobId out).isSome = true → main_exit false rc out true true = 0) := by
  intro rc out blocking ws
  refine ⟨rfl, ?_, ?_, ?_, ?_, ?_⟩
  · intro h; simp [main_exit, h]
  · intro h0 hn; simp [main_exit, h0, hn]
  · intro h0 hs hws
    obtain ⟨j, hj⟩ := Option.isSome_iff_exists.mp hs
    subst hws
    simp [main_exit, h0, hj]
  · intro h0 hs
    obtain ⟨j, hj⟩ := Option.isSome_iff_exists.mp hs
    simp [main_exit, h0, hj]
  · intro h0 hs
    obtain ⟨j, hj⟩ := Option.isSome_iff_exists.mp hs
    simp [main_exit, h0, hj]

/-- C5 witness: a failing submission exits 1, and a blocking run whose
wait reports failure exits 1. -/
theorem c5_witness :
    ((1 : Int) ≠ 0 ∧ main_exit false 1 [] false false = 1) ∧
    ((0 : Int) = 0 ∧ (findJobId "Submitted batch job 7".data).isSome = true ∧
      main_exit false 0 "Submitted batch job 7".data true false = 1) :=
  ⟨⟨by decide, (c5_exit_codes 1 [] false false).2.1 (by decide)⟩,
   ⟨rfl, by decide,
     (c5_exit_codes 0 "Submitted batch job 7".data true false).2.2.2.1 rfl (by decide) rfl⟩⟩

/-- C10: the Alvis ssh port is the constant 22, independent of the job id
and outside the Berzelius range [10000, 65000). -/
theorem c10_alvis_ssh_port_constant :
    ∀ job_id : Str, Alvis.get_ssh_port job_id = 22 ∧
      ¬ (10000 ≤ Alvis.get_ssh_port job_id ∧ Alvis.get_ssh_port job_id < 65000) := by
  intro job_id
  refine ⟨rfl, ?_⟩
  unfold Alvis.get_ssh_port
  omega

/-- When every attempt of the window fails, the polling loop exhausts its
fuel, sleeping once per attempt. -/
theorem get_job_nodes_go_allfail :
    ∀ (fuel attempt : Nat) (env : PollEnv),
      (∀ i, attempt ≤ i → i < attempt + fuel →
        squeue_nodes (env.squeue i) = none ∧ scontrol_nodes (env.scontrol i) = none) →
      get_job_nodes_go env attempt fuel = (none, fuel) := by
  intro fuel
  induction fuel with
  | zero => intro attempt env _; rfl
  | succ fuel ih =>
    intro attempt env h
    have h0 := h attempt (le_refl _) (by omega)
    simp only [get_job_nodes_go, h0.1, h0.2]
    rw [ih (attempt + 1) env (fun i h1 h2 => h i (by omega) (by omega))]

/-- A successful loop result is produced by one of the two queries of the
attempt at which the loop stopped, within the fuel. -/
theorem get_job_nodes_go_success :
    ∀ (fuel attempt : Nat) (env : PollEnv) (n : Str) (k : Nat),
      get_job_nodes_go env attempt fuel = (some n, k) →
      k < fuel ∧ (squeue_nodes (env.squeue (attempt + k)) = some n ∨
        scontrol_nodes (env.scontrol (attempt + k)) = some n) := by
  intro fuel
  induction fuel with
  | zero => intro attempt env n k h; exact absurd h (by simp [get_job_nodes_go])
  | succ fuel ih =>
    intro attempt env n k h
    rcases hsq : squeue_nodes (env.squeue attempt) with _ | m
    · rcases hsc : scontrol_nodes (env.scontrol attempt) with _ | m
      · rcases hgo : get_job_nodes_go env (attempt + 1) fuel with ⟨r1, r2⟩
        have h' : (r1, r2 + 1) = (some n, k) := by
          rw [← h]; simp only [get_job_nodes_go, hsq, hsc, hgo]
        have hr1 : r1 = some n := by simpa using congrArg Prod.fst h'
        have hk : r2 + 1 = k := by simpa using congrArg Prod.snd h'
        obtain ⟨hk', hq⟩ := ih (attempt + 1) env n r2 (by rw [hgo, hr1])
        subst hk
        refine ⟨by omega, ?_⟩
        have harith : attempt + (r2 + 1) = attempt + 1 + r2 := by omega
        rw [harith]
        exact hq
      · have h' : ((some m : Option Str), 0) = (some n, k) := by
          rw [← h]; simp only [get_job_nodes_go, hsq, hsc]
        have hm : m = n := by simpa using congrArg Prod.fst h'
        have hk : k = 0 := by simpa using (congrArg Prod.snd h').symm
        subst hm; subst hk
        exact ⟨by omega, Or.inr (by simpa using hsc)⟩
    · have h' : ((some m : Option Str), 0) = (some n, k) := by
        rw [← h]; simp only [get_job_nodes_go, hsq]
      have hm : m = n := by simpa using congrArg Prod.fst h'
      have hk : k = 0 := by simpa using (congrArg Prod.snd h').symm
      subst hm; subst hk
      exact ⟨by omega, Or.inl (by simpa using hsq)⟩

/-- C3: in the scenario where the queue tool answers the pending
placeholder on the first two polls and a real node name on the third,
while the detailed fallback query yields no usable node, get_job_nodes
returns the node name having slept exactly twice; in general, a window of
thirty failing attempts exhausts the retries and returns the absence
signal, any success is the node-name expression produced by one of the two
queries at the returning attempt, and the sleep interval is ten seconds. -/
theorem c3_node_discovery :
    get_job_nodes c3_env = (some "node001".data, 2) ∧
    (∀ env : PollEnv,
      (∀ i, i < max_attempts →
        squeue_nodes (env.squeue i) = none ∧ scontrol_nodes (env.scontrol i) = none) →
      get_job_nodes env = (none, max_attempts)) ∧
    (∀ (env : PollEnv) (n : Str) (k : Nat), get_job_nodes env = (some n, k) →
      k < max_attempts ∧ (squeue_nodes (env.squeue k) = some n ∨
        scontrol_nodes (env.scontrol k) = some n)) ∧
    sleep_interval = 10 := by
  refine ⟨by decide, ?_, ?_, rfl⟩
  · intro env h
    exact get_job_nodes_go_allfail max_attempts 0 env (fun i _ h2 => h i (by omega))
  · intro env n k h
    have h2 := get_job_nodes_go_success max_attempts 0 env n k h
    simpa using h2

/-- C3 witness: the environment in which both tools always fail exhausts
the thirty attempts and signals absence. -/
theorem c3_witness :
    (∀ i, i < max_attempts → squeue_nodes (c3_allfail_env.squeue i) = none ∧
      scontrol_nodes (c3_allfail_env.scontrol i) = none) ∧
    get_job_nodes c3_allfail_env = (none, max_attempts) := by
  have h : ∀ i, i < max_attempts → squeue_nodes (c3_allfail_env.squeue i) = none ∧
      scontrol_nodes (c3_allfail_env.scontrol i) = none := fun i _ => ⟨rfl, rfl⟩
  exact ⟨h, c3_node_discovery.2.1 c3_allfail_env h⟩

/-- C6 counterexample: with an empty shell environment, command echo hi
and output path /tmp, the generated batch command line differs from the
claimed multiplexer wrap of exactly the shell-env-prefixed user command,
because the source inserts uv run before the wrapped command. -/
theorem c6_counterexample :
    batch_final_command [] "echo hi".data "/tmp".data ≠
      spec_batch_final_command [] "echo hi".data "/tmp".data := by decide

/-- C6 amended: for every shell environment, user command and output path,
the non-interactive final command line launches a multiplexer session
wrapping uv run followed by the shell-env-prefixed user command piped
through tee to the runtime-resolved output path, and this command line is
the last line of the script assembled by wrap_in_sbatch. -/
theorem c6_batch_command_line_amended :
    ∀ (shell_env command stdout_path account time_alloc
        resource_alloc_str ssh_setup_str : Str),
      batch_final_command shell_env command stdout_path =
        spec_batch_final_command_uv shell_env command stdout_path ∧
      wrap_in_sbatch command account time_alloc resource_alloc_str ssh_setup_str
          shell_env false stdout_path =
        ("#!/bin/bash\n#SBATCH -A ".data ++ account ++ "\n#SBATCH -t ".data ++
          time_alloc ++ ['\n'] ++ resource_alloc_str ++ ['\n'] ++
          ("#SBATCH -o ".data ++ stdout_path ++ "/%A.out".data) ++ ['\n'] ++
          ssh_setup_str ++ ['\n']) ++
          batch_final_command shell_env command stdout_path ++ ['\n'] := by
  intro se cmd sp acc t ra ssh
  constructor
  · simp [batch_final_command, spec_batch_final_command_uv, List.append_assoc]
  · simp [wrap_in_sbatch, final_command, List.append_assoc]

/-- A pattern starting with a non-digit never occurs inside an all-digit
string. -/
theorem containsSub_digits_false (p : Char) (ps : Str) (hp : isDigitCh p = false) :
    ∀ ds : Str, (∀ c ∈ ds, isDigitCh c = true) → containsSub (p :: ps) ds = false := by
  intro ds
  induction ds with
  | nil => intro _; rfl
  | cons d t ih =>
    intro h
    have hpd : (p == d) = false := by
      rw [beq_eq_false_iff_ne]
      intro hrfl
      have hd := h d (List.mem_cons_self _ _)
      rw [← hrfl, hp] at hd
      exact Bool.false_ne_true hd
    simp only [containsSub, List.isPrefixOf, hpd, Bool.false_and, Bool.false_or]
    exact ih (fun c hc => h c (List.mem_cons_of_mem _ hc))

/-- Substring absence over an appended tail: no position of the prefix
part matches and the pattern is absent from the tail. -/
theorem containsSub_append_false (pat L ds : Str)
    (hL : ∀ i, i < L.length → pat.isPrefixOf (L.drop i ++ ds) = false)
    (hds : containsSub pat ds = false) : containsSub pat (L ++ ds) = false := by
  induction L with
  | nil => simpa using hds
  | cons c L ih =>
    have h0 : pat.isPrefixOf (c :: (L ++ ds)) = false := by
      have h1 := hL 0 (by simp)
      simpa using h1
    have hrest : containsSub pat (L ++ ds) = false := by
      apply ih
      intro i hi
      have h1 := hL (i + 1) (by simpa using Nat.succ_lt_succ hi)
      simpa using h1
    simp only [List.cons_append, containsSub, Bool.or_eq_false_iff]
    exact ⟨h0, hrest⟩

/-- The cpu-branch rendering shared by both Berzelius resource_alloc
variants: the trimmed f-string is the partition selector line followed by
the nodes line. -/
theorem cpu_branch_render (n : Nat) :
    trim_whitespace (['\n'] ++ pad12 ++ "--partition=berzelius-cpu".data ++ ['\n'] ++ pad12 ++
      ([] : Str) ++ ['\n'] ++ pad12 ++ ("#SBATCH --nodes ".data ++ natToStr n) ++
      ['\n'] ++ pad16) =
    "--partition=berzelius-cpu".data ++ '\n' :: ("#SBATCH --nodes ".data ++ natToStr n) := by
  have hds := natToStr_digits n
  have hne := natToStr_ne_nil n
  have hnl : '\n' ∉ natToStr n := fun hm => ne_nl_of_digit (hds _ hm) rfl
  have harg : ['\n'] ++ pad12 ++ "--partition=berzelius-cpu".data ++ ['\n'] ++ pad12 ++
      ([] : Str) ++ ['\n'] ++ pad12 ++ ("#SBATCH --nodes ".data ++ natToStr n) ++
      ['\n'] ++ pad16 =
      joinNl [([] : Str), pad12 ++ "--partition=berzelius-cpu".data, pad12,
        pad12 ++ ("#SBATCH --nodes ".data ++ natToStr n), pad16] := by
    simp [joinNl, List.append_assoc]
  have hp : ∀ p ∈ [([] : Str), pad12 ++ "--partition=berzelius-cpu".data, pad12,
      pad12 ++ ("#SBATCH --nodes ".data ++ natToStr n), pad16], '\n' ∉ p := by
    intro p hmem
    simp only [List.mem_cons, List.not_mem_nil, or_false] at hmem
    rcases hmem with rfl | rfl | rfl | rfl | rfl
    · simp
    · decide
    · decide
    · simp only [List.mem_append, not_or]
      exact ⟨by decide, by decide, hnl⟩
    · decide
  rw [harg, trim_whitespace_joinNl _ (by simp) hp]
  have hstrip : strip (pad12 ++ ("#SBATCH --nodes ".data ++ natToStr n)) =
      "#SBATCH --nodes ".data ++ natToStr n := by
    have hl : lstrip (pad12 ++ ("#SBATCH --nodes ".data ++ natToStr n)) =
        "#SBATCH --nodes ".data ++ natToStr n := rfl
    rw [strip, hl, rstrip_append_digits _ _ hne hds]
  have e1 : strip ([] : Str) = [] := rfl
  have e2 : strip (pad12 ++ "--partition=berzelius-cpu".data) =
      "--partition=berzelius-cpu".data := by decide
  have e3 : strip pad12 = [] := by decide
  have e5 : strip pad16 = [] := by decide
  have hne2 : "#SBATCH --nodes ".data ++ natToStr n ≠ [] := by simp
  simp only [List.map_cons, List.map_nil, e1, e2, e3, hstrip, e5]
  simp [List.filter_cons, hne2, joinNl]

/-- C7: for the no-accelerator device type the Berzelius renderers emit
the cpu partition selector line in place of the gpu-count directive and
omit the cpus-per-gpu directive entirely, in both source variants. -/
theorem c7_berzelius_cpu_rendering :
    ∀ (gpus_per_node cpus nodes : Nat),
      Berzelius.resource_alloc_utils gpus_per_node "cpu".data cpus nodes =
        "--partition=berzelius-cpu".data ++
          '\n' :: ("#SBATCH --nodes ".data ++ natToStr nodes) ∧
      Berzelius.resource_alloc_submit gpus_per_node "NOGPU".data cpus nodes =
        Except.ok ("--partition=berzelius-cpu".data ++
          '\n' :: ("#SBATCH --nodes ".data ++ natToStr nodes)) ∧
      splitNl (Berzelius.resource_alloc_utils gpus_per_node "cpu".data cpus nodes) =
        ["--partition=berzelius-cpu".data, "#SBATCH --nodes ".data ++ natToStr nodes] ∧
      containsSub "--cpus-per-gpu".data
        (Berzelius.resource_alloc_utils gpus_per_node "cpu".data cpus nodes) = false ∧
      containsSub "--gpus-per-node".data
        (Berzelius.resource_alloc_utils gpus_per_node "cpu".data cpus nodes) = false := by
  intro g cp n
  have hds := natToStr_digits n
  have hnl : '\n' ∉ natToStr n := fun hm => ne_nl_of_digit (hds _ hm) rfl
  have key : Berzelius.resource_alloc_utils g "cpu".data cp n =
      "--partition=berzelius-cpu".data ++
        '\n' :: ("#SBATCH --nodes ".data ++ natToStr n) := by
    have h0 : Berzelius.resource_alloc_utils g "cpu".data cp n =
        trim_whitespace (['\n'] ++ pad12 ++ "--partition=berzelius-cpu".data ++ ['\n'] ++
          pad12 ++ ([] : Str) ++ ['\n'] ++ pad12 ++
          ("#SBATCH --nodes ".data ++ natToStr n) ++ ['\n'] ++ pad16) := rfl
    rw [h0, cpu_branch_render]
  have key2 : Berzelius.resource_alloc_submit g "NOGPU".data cp n =
      Except.ok ("--partition=berzelius-cpu".data ++
        '\n' :: ("#SBATCH --nodes ".data ++ natToStr n)) := by
    have h0 : Berzelius.resource_alloc_submit g "NOGPU".data cp n =
        Except.ok (trim_whitespace (['\n'] ++ pad12 ++ "--partition=berzelius-cpu".data ++
          ['\n'] ++ pad12 ++ ([] : Str) ++ ['\n'] ++ pad12 ++
          ("#SBATCH --nodes ".data ++ natToStr n) ++ ['\n'] ++ pad16)) := rfl
    rw [h0, cpu_branch_render]
  have hsplit : splitNl (Berzelius.resource_alloc_utils g "cpu".data cp n) =
      ["--partition=berzelius-cpu".data, "#SBATCH --nodes ".data ++ natToStr n] := by
    rw [key, splitNl_append _ (by decide), splitNl_no_nl]
    simp only [List.mem_append, not_or]
    exact ⟨by decide, hnl⟩
  have hshape : "--partition=berzelius-cpu".data ++
      '\n' :: ("#SBATCH --nodes ".data ++ natToStr n) =
      ("--partition=berzelius-cpu".data ++ '\n' :: "#SBATCH --nodes ".data) ++ natToStr n := by
    simp [List.append_assoc]
  have hlen : ("--partition=berzelius-cpu".data ++ '\n' :: "#SBATCH --nodes ".data).length = 42 := by
    decide
  have habs1 : containsSub "--cpus-per-gpu".data
      (Berzelius.resource_alloc_utils g "cpu".data cp n) = false := by
    rw [key, hshape]
    apply containsSub_append_false
    · intro i hi
      rw [hlen] at hi
      interval_cases i <;> rfl
    · have hpat : "--cpus-per-gpu".data = '-' :: "-cpus-per-gpu".data := rfl
      rw [hpat]
      exact containsSub_digits_false '-' _ (by decide) _ hds
  have habs2 : containsSub "--gpus-per-node".data
      (Berzelius.resource_alloc_utils g "cpu".data cp n) = false := by
    rw [key, hshape]
    apply containsSub_append_false
    · intro i hi
      rw [hlen] at hi
      interval_cases i <;> rfl
    · have hpat : "--gpus-per-node".data = '-' :: "-gpus-per-node".data := rfl
      rw [hpat]
      exact containsSub_digits_false '-' _ (by decide) _ hds
  exact ⟨key, key2, hsplit, habs1, habs2⟩

/-- C9: the submit-module Berzelius renderer raises ZeroDivisionError for
zero gpus per node combined with any accelerator model, is total when the
divisor is nonzero or the model is NOGPU, and the division it performs is
cpus_per_node // gpus_per_node. -/
theorem c9_submit_division_safety :
    (∀ (gpu_model : Str) (cpus nodes : Nat), gpu_model ≠ "NOGPU".data →
      Berzelius.resource_alloc_submit 0 gpu_model cpus nodes =
        Except.error "ZeroDivisionError".data) ∧
    (∀ (g : Nat) (gpu_model : Str) (cpus nodes : Nat),
      g ≠ 0 ∨ gpu_model = "NOGPU".data →
      ∃ s, Berzelius.resource_alloc_submit g gpu_model cpus nodes = Except.ok s) ∧
    (∀ (g cpus : Nat), g ≠ 0 → pydiv cpus g = Except.ok (cpus / g)) := by
  refine ⟨?_, ?_, ?_⟩
  · intro gm cp n hgm
    simp [Berzelius.resource_alloc_submit, pydiv, hgm, Except.map]
  · intro g gm cp n hor
    by_cases hm : gm = "NOGPU".data
    · subst hm
      exact ⟨_, rfl⟩
    · have hg : g ≠ 0 := by tauto
      simp only [Berzelius.resource_alloc_submit, pydiv, if_pos hm, if_neg hg, Except.map]
      exact ⟨_, rfl⟩
  · intro g cp hg
    simp [pydiv, hg]

/-- C9 witness: a concrete division-by-zero error, a concrete total run,
and a concrete nonzero division. -/
theorem c9_witness :
    ("A100".data ≠ "NOGPU".data ∧
      Berzelius.resource_alloc_submit 0 "A100".data 16 1 =
        Except.error "ZeroDivisionError".data) ∧
    (((2 : Nat) ≠ 0 ∨ ("A100".data : Str) = "NOGPU".data) ∧
      ∃ s, Berzelius.resource_alloc_submit 2 "A100".data 16 1 = Except.ok s) ∧
    ((16 : Nat) ≠ 0 ∧ pydiv 32 16 = Except.ok (32 / 16)) :=
  ⟨⟨by decide, c9_submit_division_safety.1 "A100".data 16 1 (by decide)⟩,
   ⟨Or.inl (by decide),
     c9_submit_division_safety.2.1 2 "A100".data 16 1 (Or.inl (by decide))⟩,
   ⟨by decide, c9_submit_division_safety.2.2 16 32 (by decide)⟩⟩

/-- C8 counterexample: a 76-character line beginning with a space is not
rendered unmodified between the borders, because format_in_box strips the
text before boxing and re-pads on the right. -/
theorem c8_counterexample :
    format_in_box (' ' :: List.replicate 75 'a') 76 ≠
      spec_box_single (' ' :: List.replicate 75 'a') 76 := by decide

/-- C8 amended: for a single line that whitespace stripping leaves
unchanged, a 76-character line renders unmodified between the border
characters as the single content row with no wrap, and a 150-character
line is split into exactly two bounded-width boxed segments of 80
characters each. -/
theorem c8_box_formatting_amended :
    (∀ s : Str, '\n' ∉ s → strip s = s → s.length = 76 →
      format_in_box s 76 = spec_box_single s 76) ∧
    (∀ s : Str, '\n' ∉ s → strip s = s → s.length = 150 →
      format_in_box s 76 =
        joinNl [['┌'] ++ List.replicate 78 '─' ++ ['┐'],
          boxRow (s.take 76) 76, boxRow (s.drop 76) 76,
          ['└'] ++ List.replicate 78 '─' ++ ['┘']] ∧
      (boxRow (s.take 76) 76).length = 80 ∧ (boxRow (s.drop 76) 76).length = 80) := by
  constructor
  · intro s hnl hstrip hlen
    have hlj : ljust s 76 = s := by
      rw [ljust, hlen]
      simp
    have hr : rowsFor 76 s = [boxRow s 76] := by
      rw [rowsFor, if_pos (by omega)]
    simp only [format_in_box, hstrip, splitNl_no_nl hnl, List.map_cons, List.map_nil, hr]
    simp [spec_box_single, boxRow, hlj]
  · intro s hnl hstrip hlen
    have hd : (s.drop 76).length = 74 := by simp [hlen]
    have h1 : chunkLine 76 s = [s.take 76, s.drop 76] := by
      rw [chunkLine, dif_pos ⟨by omega, by omega⟩, chunkLine,
        dif_neg (by simp only [hd]; omega),
        if_pos (List.ne_nil_of_length_pos (by omega))]
    have hr : rowsFor 76 s = [boxRow (s.take 76) 76, boxRow (s.drop 76) 76] := by
      rw [rowsFor, if_neg (by omega), h1]
      simp
    refine ⟨?_, ?_, ?_⟩
    · simp only [format_in_box, hstrip, splitNl_no_nl hnl, List.map_cons, List.map_nil, hr]
      simp
    · simp only [boxRow, ljust, List.length_append, List.length_replicate,
        List.length_take, List.length_cons, List.length_nil, hlen]
      omega
    · simp only [boxRow, ljust, List.length_append, List.length_replicate,
        List.length_cons, List.length_nil, hd]

set_option maxRecDepth 8000 in
/-- C8 witness: the amended statements applied at concrete all-letter
lines of 76 and 150 characters. -/
theorem c8_witness :
    (('\n' ∉ List.replicate 76 'a') ∧
      strip (List.replicate 76 'a') = List.replicate 76 'a' ∧
      (List.replicate 76 'a').length = 76 ∧
      format_in_box (List.replicate 76 'a') 76 =
        spec_box_single (List.replicate 76 'a') 76) ∧
    (('\n' ∉ List.replicate 150 'b') ∧
      strip (List.replicate 150 'b') = List.replicate 150 'b' ∧
      (List.replicate 150 'b').length = 150 ∧
      (boxRow ((List.replicate 150 'b').take 76) 76).length = 80) :=
  ⟨⟨by decide, by decide, by decide,
    c8_box_formatting_amended.1 _ (by decide) (by decide) (by decide)⟩,
   ⟨by decide, by decide, by decide,
    ((c8_box_formatting_amended.2 _ (by decide) (by decide) (by decide)).2).1⟩⟩

end Slurm
